import Mathlib

/- Shallow embedding of the circuit-breaker flow node
   (api-builder-plugin-circuit-breaker, src/actions.js).

   Modelling choices, all read off the source:
   * JS status/output strings are Lean `String`s with the same literal values.
   * Timestamps are `Nat` milliseconds; every `new Date().getTime()` in one
     call is modelled by the single parameter `now` (the calls happen within
     microseconds of each other and the code only compares them to stored
     values).  JS `a < b - c` on non-negative integers agrees with Nat
     truncated subtraction `a < b - c`: when `b < c` both sides are false.
   * The NodeCache store is created with `useClones: false` (src/index.js), so
     a breaker obtained by `get` is aliased with the cached object and every
     in-place mutation is visible in the cache; we model this by writing the
     resulting breaker back into the store on the success path.
   * `Math.random()`-based error ids are nondeterministic; the id is passed in
     as the `errorId` argument.
   * The logger is an external collaborator (spec scope); its calls are
     no-ops wherever a logger is actually passed.  The one place the source
     omits the logger argument — the open-state fallthrough
     `return _handleHalfopenStatus(circuitBreaker)` — makes the
     `logger.debug` inside the `successCount >= halfOpenSuccesses` branch a
     TypeError on `undefined`; that reachable throw is modelled explicitly
     (`_handleHalfopenStatusNoLogger`).
   * The character-level operations of `_isReturnCodeAnError`
     (split / trim / includes / replace / numeric coercion) are modelled on
     `List Char` (`String.toList`).  JS `Number(s)` coercion of a trimmed
     all-digit token yields its value and a token with other characters
     yields NaN, which never satisfies a comparison; `digitsToNat` returns
     `some n` respectively `none` in exactly those cases.  (JS maps the empty
     string to 0; that difference is reachable only for malformed spec tokens,
     which the spec leaves unspecified, and for response code 0, which the
     update validation rejects as missing.)
   * A thrown JS exception is `Except.error` carrying the message; the flow
     runtime surfaces it as route "error" without touching the cache. -/

deriving instance DecidableEq for Except

structure ErrorEvent where
  error : String
  timestamp : Nat
  cause : String
deriving Repr, DecidableEq

structure ConfigParams where
  maxErrorCount : Nat
  timeRange : Nat
  halfOpenSuccesses : Nat
  recoverPeriod : Nat
  communicationError : Bool
  returnCodes : String
  maxResponseTime : Nat
deriving Repr, DecidableEq

/-- The parameters supplied by the flow; a field the flow leaves out is
`none` (JS `undefined`).  `_setDefaultParams` tests `== undefined`, which for
these numeric/string/boolean fields is exactly "not supplied". -/
structure SuppliedParams where
  maxErrorCount : Option Nat := none
  timeRange : Option Nat := none
  halfOpenSuccesses : Option Nat := none
  recoverPeriod : Option Nat := none
  communicationError : Option Bool := none
  returnCodes : Option String := none
  maxResponseTime : Option Nat := none
deriving Repr, DecidableEq

/-- `_setDefaultParams` of actions.js: keep each supplied field, fill the
missing ones with the documented defaults. -/
def _setDefaultParams (p : SuppliedParams) : ConfigParams :=
  { maxErrorCount := p.maxErrorCount.getD 10
    timeRange := p.timeRange.getD 300
    halfOpenSuccesses := p.halfOpenSuccesses.getD 5
    recoverPeriod := p.recoverPeriod.getD 30
    communicationError := p.communicationError.getD true
    returnCodes := p.returnCodes.getD "[300-999]"
    maxResponseTime := p.maxResponseTime.getD 100 }

structure CircuitBreaker where
  status : String
  output : String
  errors : List ErrorEvent
  successCount : Nat
  errorCodeMap : List (Nat × Bool)
  openedTimestamp : Option Nat := none
  params : ConfigParams
deriving Repr, DecidableEq

/-- The NodeCache keyed by circuitBreakerId. -/
abbrev Store := List (String × CircuitBreaker)

def cacheGet (store : Store) (id : String) : Option CircuitBreaker :=
  store.lookup id

def cacheSet (store : Store) (id : String) (cb : CircuitBreaker) : Store :=
  (id, cb) :: store

/-- JS whitespace as far as `String.prototype.trim` concerns the spec strings. -/
def isSpaceChar (c : Char) : Bool :=
  c == ' ' || c == '\t' || c == '\n' || c == '\r'

/-- `s.trim()` on the character list. -/
def trimChars (cs : List Char) : List Char :=
  ((cs.dropWhile isSpaceChar).reverse.dropWhile isSpaceChar).reverse

def splitOnCharAux (sep : Char) : List Char → List Char → List (List Char)
  | [], acc => [acc.reverse]
  | c :: cs, acc =>
    if c == sep then acc.reverse :: splitOnCharAux sep cs []
    else splitOnCharAux sep cs (c :: acc)

/-- `s.split(sep)` on the character list. -/
def splitOnChar (sep : Char) (cs : List Char) : List (List Char) :=
  splitOnCharAux sep cs []

/-- `s.replace(/\[|\]/g, "")`: delete every bracket character. -/
def stripBracketsChars (cs : List Char) : List Char :=
  cs.filter (fun c => !(c == '[') && !(c == ']'))

def isDigitChar (c : Char) : Bool :=
  decide ('0' ≤ c) && decide (c ≤ '9')

def digitsToNatAux : List Char → Nat → Option Nat
  | [], acc => some acc
  | c :: cs, acc =>
    if isDigitChar c then digitsToNatAux cs (acc * 10 + (c.toNat - '0'.toNat))
    else none

/-- JS `Number(s)` restricted to the shapes the classifier meets: an all-digit
token evaluates to its value, anything else (and the empty token) to NaN,
which satisfies no comparison. -/
def digitsToNat : List Char → Option Nat
  | [] => none
  | cs => digitsToNatAux cs 0

/-- Body of the classification loop of `_isReturnCodeAnError` for one trimmed
token `element`: a token containing a hyphen is bracket-stripped and split
into inclusive numeric bounds, any other token is compared for numeric
equality (JS `httpResponseCode==element` coerces the string). -/
def elementIsError (code : Nat) (element : List Char) : Bool :=
  if element.contains '-' then
    let startEnd := splitOnChar '-' (stripBracketsChars element)
    match digitsToNat (trimChars (startEnd.getD 0 [])),
          digitsToNat (trimChars (startEnd.getD 1 [])) with
    | some lo, some hi => decide (lo ≤ code) && decide (code ≤ hi)
    | _, _ => false
  else
    match digitsToNat element with
    | some n => code == n
    | none => false

/-- The `for` loop of `_isReturnCodeAnError`: first matching token wins
(`break`), no match leaves `result = false`. -/
def scanFields (code : Nat) : List (List Char) → Bool
  | [] => false
  | f :: rest =>
    if elementIsError code (trimChars f) then true else scanFields code rest

/-- Cache-miss path of `_isReturnCodeAnError`: split the spec on commas and
scan the tokens. -/
def _isReturnCodeAnErrorMiss (returnCodes : String) (code : Nat) : Bool :=
  scanFields code (splitOnChar ',' returnCodes.toList)

/-- `_isReturnCodeAnError` of actions.js.  The breaker's `errorCodeMap` is
consulted first (`!= undefined`, and only booleans are ever stored); on a miss
the spec is parsed and the result recorded in the map before returning.  The
mutation of the breaker is returned explicitly.  (The `httpResponseCode ==
undefined` guard at the top of the source is unreachable from
`updateCircuitBreaker`, which validates the code first; `configCheck` never
classifies.) -/
def _isReturnCodeAnError (cb : CircuitBreaker) (code : Nat) : Bool × CircuitBreaker :=
  match cb.errorCodeMap.lookup code with
  | some v => (v, cb)
  | none =>
    let result := _isReturnCodeAnErrorMiss cb.params.returnCodes code
    (result, { cb with errorCodeMap := (code, result) :: cb.errorCodeMap })

/-- The error-pruning loop of `_handleOpenStatus`:
`errors.forEach((error, index, object) => { if (error.timestamp < timeRange)
object.splice(index); })`.  JS `forEach` fixes the visited index range at the
original length and skips indices that no longer exist; `splice(index)` with
no delete count removes every element from `index` on (`List.take index`). -/
def pruneErrors (timeRange : Nat) (errors : List ErrorEvent) : List ErrorEvent :=
  (List.range errors.length).foldl
    (fun arr index =>
      match arr.get? index with
      | some err => if err.timestamp < timeRange then arr.take index else arr
      | none => arr)
    errors

/-- `_handleClosedStatus` of actions.js. -/
def _handleClosedStatus (cb : CircuitBreaker) : CircuitBreaker :=
  { cb with output := "next" }

/-- `_handleHalfopenStatus` of actions.js. -/
def _handleHalfopenStatus (cb : CircuitBreaker) : CircuitBreaker :=
  let cb1 :=
    if cb.successCount % 2 = 0 then { cb with output := "next" }
    else { cb with output := "open" }
  if cb1.params.halfOpenSuccesses ≤ cb1.successCount then
    { cb1 with status := "closed", output := "next", errors := [] }
  else cb1

/-- `_handleHalfopenStatus` as invoked from the open-state fallthrough
(actions.js calls `_handleHalfopenStatus(circuitBreaker)` there with the
`logger` argument omitted): the parity routing runs as usual, but entering
the `successCount >= halfOpenSuccesses` branch evaluates `logger.debug` on
`undefined` and throws before any of that branch's mutations, so the call
rejects with a TypeError instead of closing the breaker. -/
def _handleHalfopenStatusNoLogger (cb : CircuitBreaker) : Except String CircuitBreaker :=
  let cb1 :=
    if cb.successCount % 2 = 0 then { cb with output := "next" }
    else { cb with output := "open" }
  if cb1.params.halfOpenSuccesses ≤ cb1.successCount then
    Except.error "TypeError: Cannot read properties of undefined (reading debug)"
  else Except.ok cb1

/-- `_handleOpenStatus` of actions.js.  An `undefined` `openedTimestamp`
(never opened) makes the JS comparison NaN-false; transition to halfopen
happens only when `openedTimestamp < now - recoverPeriod*1000`, i.e. strictly
after the recovery period, and then the halfopen handler runs in the same
call — loggerless, since the source passes no logger on that call, so for
`halfOpenSuccesses = 0` (successCount was just reset to 0) the call rejects
with a TypeError.  Otherwise the errors are pruned and the breaker closes
when fewer than `maxErrorCount` remain. -/
def _handleOpenStatus (now : Nat) (cb : CircuitBreaker) : Except String CircuitBreaker :=
  let cb1 : CircuitBreaker := { cb with output := "open" }
  let recoverPeriod := cb1.params.recoverPeriod * 1000
  if (match cb1.openedTimestamp with
      | some t => decide (t < now - recoverPeriod)
      | none => false) then
    _handleHalfopenStatusNoLogger { cb1 with status := "halfopen", successCount := 0 }
  else
    let timeRange := now - cb1.params.timeRange * 1000
    let cb2 := { cb1 with errors := pruneErrors timeRange cb1.errors }
    if cb2.errors.length < cb2.params.maxErrorCount then
      Except.ok { cb2 with status := "closed", output := "next" }
    else Except.ok cb2

/-- The `switch (circuitBreaker.status)` of `configCheckCircuitBreaker`; an
unknown status (impossible for breakers the code creates) falls through
unchanged.  Only the open branch can throw (the loggerless fallthrough
above); the halfopen and closed branches receive the logger and are total. -/
def dispatchStatus (now : Nat) (cb : CircuitBreaker) : Except String CircuitBreaker :=
  if cb.status = "open" then _handleOpenStatus now cb
  else if cb.status = "halfopen" then Except.ok (_handleHalfopenStatus cb)
  else if cb.status = "closed" then Except.ok (_handleClosedStatus cb)
  else Except.ok cb

/-- The breaker freshly created by `configCheckCircuitBreaker` for an unseen
identifier. -/
def initialCircuitBreaker (params : SuppliedParams) : CircuitBreaker :=
  { status := "closed", output := "next", errors := [], successCount := 0,
    errorCodeMap := [], openedTimestamp := none,
    params := _setDefaultParams params }

/-- The result the flow runtime hands back on a successful call: the cache
after the call, the breaker snapshot, and the chosen output route. -/
structure CallResult where
  store : Store
  value : CircuitBreaker
  output : String
deriving Repr, DecidableEq

/-- `configCheckCircuitBreaker` of actions.js.  `!circuitBreakerId` is true
exactly for `undefined`/`null` (`none`) and the empty string.  A new breaker
is cached at creation; because the cache does not clone, the cached object is
the one the handlers then mutate, so the final cache maps the id to the
dispatched breaker. -/
def configCheckCircuitBreaker (store : Store) (circuitBreakerId : Option String)
    (params : SuppliedParams) (now : Nat) : Except String CallResult :=
  match circuitBreakerId with
  | none => Except.error "Missing required parameter: circuitBreakerId"
  | some id =>
    if id = "" then Except.error "Missing required parameter: circuitBreakerId"
    else
      let cb0 := match cacheGet store id with
        | some cb => cb
        | none => initialCircuitBreaker params
      match dispatchStatus now cb0 with
      | Except.error msg => Except.error msg
      | Except.ok cb1 =>
        Except.ok { store := cacheSet store id cb1, value := cb1, output := cb1.output }

/-- The cause string `"responseCode " + httpResponseCode`. -/
def causeOf (code : Nat) : String :=
  "responseCode " ++ toString code

/-- `updateCircuitBreaker` of actions.js.  `!httpResponseCode` is true for
`undefined`/`null` (`none`) and for 0.  When no breaker exists for the id,
`_isReturnCodeAnError` dereferences `undefined.errorCodeMap` and the call
rejects with a TypeError.  On the error path one event is appended and the
breaker opens when it was halfopen or the grown list reaches `maxErrorCount`;
otherwise only `successCount` grows.  The classification may record its
result in `errorCodeMap` in both branches. -/
def updateCircuitBreaker (store : Store) (circuitBreakerId : Option String)
    (httpResponseCode : Option Nat) (errorId : String) (now : Nat) :
    Except String CallResult :=
  match circuitBreakerId with
  | none => Except.error "Missing required parameter: circuitBreakerId"
  | some id =>
    if id = "" then Except.error "Missing required parameter: circuitBreakerId"
    else
      match httpResponseCode with
      | none => Except.error "Missing required parameter: httpResponseCode"
      | some code =>
        if code = 0 then Except.error "Missing required parameter: httpResponseCode"
        else
          match cacheGet store id with
          | none =>
            Except.error "TypeError: Cannot read properties of undefined (reading errorCodeMap)"
          | some cb =>
            let res := _isReturnCodeAnError cb code
            if res.1 then
              let cb2 : CircuitBreaker := { res.2 with
                errors := res.2.errors ++
                  [{ error := errorId, timestamp := now, cause := causeOf code }] }
              let cb3 : CircuitBreaker :=
                if cb2.status = "halfopen" ∨ cb2.params.maxErrorCount ≤ cb2.errors.length then
                  { cb2 with status := "open", openedTimestamp := some now }
                else cb2
              Except.ok { store := cacheSet store id cb3, value := cb3, output := "next" }
            else
              let cb2 := { res.2 with successCount := res.2.successCount + 1 }
              Except.ok { store := cacheSet store id cb2, value := cb2, output := "next" }

/- Concrete breakers and stores used by the counterexamples and witnesses
   below.  All timestamps are milliseconds. -/

/-- An error far outside every window considered below. -/
def c1staleE : ErrorEvent := { error := "a", timestamp := 0, cause := causeOf 500 }

/-- An error recorded at the evaluation instant itself, hence inside the
window. -/
def c1freshE : ErrorEvent := { error := "b", timestamp := 400000, cause := causeOf 500 }

/-- An open breaker (default params) whose recovery period has not elapsed at
`now = 400000`: it was opened at 399000 and `recoverPeriod` is 30s. -/
def c1breaker : CircuitBreaker :=
  { status := "open", output := "open", errors := [c1staleE, c1freshE],
    successCount := 0, errorCodeMap := [], openedTimestamp := some 399000,
    params := _setDefaultParams {} }

def c1store : Store := [("cb1", c1breaker)]

/-- Ten errors recorded just before `now = 30000`, all inside the default
300s window. -/
def c2errs : List ErrorEvent :=
  (List.range 10).map (fun i => { error := "x", timestamp := 29000 + i, cause := causeOf 500 })

/-- An open breaker (default params, so `recoverPeriod = 30`) opened at
time 0 with `successCount = 7` and enough fresh errors to stay open. -/
def c2breaker : CircuitBreaker :=
  { status := "open", output := "open", errors := c2errs, successCount := 7,
    errorCodeMap := [], openedTimestamp := some 0, params := _setDefaultParams {} }

def c2store : Store := [("b", c2breaker)]

/-- A freshly created breaker with all defaults. -/
def closedDefaultBreaker : CircuitBreaker := initialCircuitBreaker {}

def closedStore : Store := [("u", closedDefaultBreaker)]

/-- A halfopen breaker: default params, two successes so far. -/
def hoBreaker : CircuitBreaker :=
  { status := "halfopen", output := "next", errors := [c1staleE], successCount := 2,
    errorCodeMap := [], openedTimestamp := some 50, params := _setDefaultParams {} }

def hoStore : Store := [("hb", hoBreaker)]

/-- A breaker that has already classified code 307 as an error. -/
def cachedBreaker : CircuitBreaker :=
  { closedDefaultBreaker with errorCodeMap := [(307, true)] }

/- Helper lemmas shared by the claim theorems. -/

theorem cacheGet_set_self (store : Store) (id : String) (cb : CircuitBreaker) :
    cacheGet (cacheSet store id cb) id = some cb := by
  simp [cacheGet, cacheSet, List.lookup]

theorem isReturnCodeAnError_preserves (cb : CircuitBreaker) (code : Nat) :
    (_isReturnCodeAnError cb code).2.status = cb.status ∧
    (_isReturnCodeAnError cb code).2.output = cb.output ∧
    (_isReturnCodeAnError cb code).2.errors = cb.errors ∧
    (_isReturnCodeAnError cb code).2.successCount = cb.successCount ∧
    (_isReturnCodeAnError cb code).2.openedTimestamp = cb.openedTimestamp ∧
    (_isReturnCodeAnError cb code).2.params = cb.params := by
  unfold _isReturnCodeAnError
  cases cb.errorCodeMap.lookup code <;> simp

theorem handleHalfopen_params (cb : CircuitBreaker) :
    (_handleHalfopenStatus cb).params = cb.params := by
  unfold _handleHalfopenStatus
  by_cases h : cb.successCount % 2 = 0 <;> simp [h] <;> split <;> simp

theorem handleHalfopenNoLogger_cases (cb : CircuitBreaker) :
    (∃ cb1, _handleHalfopenStatusNoLogger cb = Except.ok cb1 ∧ cb1.params = cb.params) ∨
    _handleHalfopenStatusNoLogger cb =
      Except.error "TypeError: Cannot read properties of undefined (reading debug)" := by
  unfold _handleHalfopenStatusNoLogger
  by_cases hpar : cb.successCount % 2 = 0 <;>
    by_cases hle : cb.params.halfOpenSuccesses ≤ cb.successCount <;>
      simp [hpar, hle]

theorem handleOpen_cases (now : Nat) (cb : CircuitBreaker) :
    (∃ cb1, _handleOpenStatus now cb = Except.ok cb1 ∧ cb1.params = cb.params) ∨
    _handleOpenStatus now cb =
      Except.error "TypeError: Cannot read properties of undefined (reading debug)" := by
  unfold _handleOpenStatus
  dsimp only
  split
  · rcases handleHalfopenNoLogger_cases
        { cb with output := "open", status := "halfopen", successCount := 0 } with ⟨cb1, hd, hp⟩ | hd
    · exact Or.inl ⟨cb1, hd, by simpa using hp⟩
    · exact Or.inr hd
  · split
    · exact Or.inl ⟨_, rfl, by simp⟩
    · exact Or.inl ⟨_, rfl, by simp⟩

theorem dispatch_cases (now : Nat) (cb : CircuitBreaker) :
    (∃ cb1, dispatchStatus now cb = Except.ok cb1 ∧ cb1.params = cb.params) ∨
    dispatchStatus now cb =
      Except.error "TypeError: Cannot read properties of undefined (reading debug)" := by
  unfold dispatchStatus
  split
  · exact handleOpen_cases now cb
  · split
    · exact Or.inl ⟨_, rfl, handleHalfopen_params cb⟩
    · split
      · exact Or.inl ⟨_, rfl, by simp [_handleClosedStatus]⟩
      · exact Or.inl ⟨_, rfl, rfl⟩

theorem scanFields_eq_true_iff (code : Nat) (l : List (List Char)) :
    scanFields code l = true ↔ ∃ f ∈ l, elementIsError code (trimChars f) = true := by
  induction l with
  | nil => simp [scanFields]
  | cons f rest ih =>
    by_cases h : elementIsError code (trimChars f) = true
    · simp [scanFields, h]
    · simp [scanFields, h, ih]

/-- Unfolding of a validated `updateCircuitBreaker` call on an existing
breaker, in terms of the classifier result. -/
theorem update_ok_spec (store : Store) (id : String) (cb : CircuitBreaker) (code : Nat)
    (eid : String) (now : Nat)
    (hid : ¬ id = "") (hcode : ¬ code = 0) (hget : cacheGet store id = some cb) :
    updateCircuitBreaker store (some id) (some code) eid now =
      (if (_isReturnCodeAnError cb code).1 then
        (let cb2 : CircuitBreaker := { (_isReturnCodeAnError cb code).2 with
          errors := (_isReturnCodeAnError cb code).2.errors ++
            [{ error := eid, timestamp := now, cause := causeOf code }] }
         let cb3 : CircuitBreaker :=
          if cb2.status = "halfopen" ∨ cb2.params.maxErrorCount ≤ cb2.errors.length then
            { cb2 with status := "open", openedTimestamp := some now }
          else cb2
         Except.ok { store := cacheSet store id cb3, value := cb3, output := "next" })
       else
        (let cb2 : CircuitBreaker := { (_isReturnCodeAnError cb code).2 with
           successCount := (_isReturnCodeAnError cb code).2.successCount + 1 }
         Except.ok { store := cacheSet store id cb2, value := cb2, output := "next" })) := by
  simp [updateCircuitBreaker, hid, hcode, hget]

/-- Claim C1 (code bug): the spec says the open-path pruning removes exactly
the entries with `timestamp < now - timeRangeSeconds*1000` and keeps every
in-window entry.  The code instead calls `splice(index)` without a delete
count, which truncates the whole tail at the first stale entry: here the
breaker is open with recovery not elapsed (opened at 399000, checked at
400000, recoverPeriod 30s), the window cutoff is 100000, the error list is
[stale@0, fresh@400000], and the fresh in-window error is dropped together
with the stale one (the list comes back empty and the breaker closes). -/
theorem C1_splice_drops_fresh_error :
    (¬ c1freshE.timestamp < 400000 - c1breaker.params.timeRange * 1000) ∧
    c1staleE.timestamp < 400000 - c1breaker.params.timeRange * 1000 ∧
    pruneErrors (400000 - c1breaker.params.timeRange * 1000) [c1staleE, c1freshE] = [] ∧
    (configCheckCircuitBreaker c1store (some "cb1") {} 400000).map
      (fun r => (r.value.errors, r.value.status)) = Except.ok ([], "closed") := by
  decide

/-- Claim C2, counterexample: at the exact boundary
`now - openedAt = recoverPeriodSeconds*1000` (opened at 0, recoverPeriod 30,
checked at `now = 30000`) the claim demands a transition to halfopen with
`successCount = 0`; the code's strict `<` comparison leaves the breaker open
with `successCount` still 7. -/
theorem C2_boundary_counterexample :
    c2breaker.openedTimestamp = some 0 ∧
    c2breaker.params.recoverPeriod * 1000 = 30000 ∧
    (configCheckCircuitBreaker c2store (some "b") {} 30000).map
      (fun r => (r.value.status, r.value.successCount)) = Except.ok ("open", 7) := by
  decide

/-- Claim C2 (amended): for every breaker in status open, a check call made
at any time `now` with `now - openedAt` STRICTLY GREATER than
`recoverPeriodSeconds*1000` (i.e. `openedAt < now - recoverPeriodSeconds*1000`;
the exact boundary does not transition) moves the breaker to halfopen with
`successCount` reset to 0 and, in the same call, applies the halfopen routing
logic to produce the returned route and state — provided `halfOpenSuccesses`
is nonzero; when `halfOpenSuccesses = 0` the fallthrough call, which the
source makes without the logger argument, dereferences `logger.debug` on
`undefined` and the call rejects with a TypeError instead. -/
theorem C2_strict_recovery_fallthrough (store : Store) (id : String) (cb : CircuitBreaker)
    (p : SuppliedParams) (now t : Nat)
    (hid : ¬ id = "") (hget : cacheGet store id = some cb)
    (hst : cb.status = "open") (hts : cb.openedTimestamp = some t)
    (hrec : t < now - cb.params.recoverPeriod * 1000) :
    (¬ cb.params.halfOpenSuccesses = 0 →
      configCheckCircuitBreaker store (some id) p now =
        Except.ok
          { store := cacheSet store id
              (_handleHalfopenStatus { cb with status := "halfopen", successCount := 0, output := "open" }),
            value := _handleHalfopenStatus { cb with status := "halfopen", successCount := 0, output := "open" },
            output := (_handleHalfopenStatus { cb with status := "halfopen", successCount := 0, output := "open" }).output }) ∧
    (cb.params.halfOpenSuccesses = 0 →
      configCheckCircuitBreaker store (some id) p now =
        Except.error "TypeError: Cannot read properties of undefined (reading debug)") := by
  constructor
  · intro hho
    have hno : ¬ cb.params.halfOpenSuccesses ≤ 0 := by omega
    simp [configCheckCircuitBreaker, hid, hget, dispatchStatus, hst, _handleOpenStatus, hts, hrec,
      _handleHalfopenStatusNoLogger, _handleHalfopenStatus, hno]
  · intro hho
    simp [configCheckCircuitBreaker, hid, hget, dispatchStatus, hst, _handleOpenStatus, hts, hrec,
      _handleHalfopenStatusNoLogger, hho]

/-- Witness for C2: one millisecond past the boundary the open breaker
(halfOpenSuccesses 5) falls through to the halfopen logic in the same call. -/
theorem C2_strict_recovery_fallthrough_witness :
    (¬ ("b" : String) = "") ∧ cacheGet c2store "b" = some c2breaker ∧
    c2breaker.status = "open" ∧ c2breaker.openedTimestamp = some 0 ∧
    0 < 30001 - c2breaker.params.recoverPeriod * 1000 ∧
    (¬ c2breaker.params.halfOpenSuccesses = 0) ∧
    configCheckCircuitBreaker c2store (some "b") {} 30001 =
      Except.ok
        { store := cacheSet c2store "b"
            (_handleHalfopenStatus { c2breaker with status := "halfopen", successCount := 0, output := "open" }),
          value := _handleHalfopenStatus { c2breaker with status := "halfopen", successCount := 0, output := "open" },
          output := (_handleHalfopenStatus { c2breaker with status := "halfopen", successCount := 0, output := "open" }).output } :=
  ⟨by decide, by decide, by decide, by decide, by decide, by decide,
    (C2_strict_recovery_fallthrough c2store "b" c2breaker {} 30001 0
      (by decide) (by decide) (by decide) (by decide) (by decide)).1 (by decide)⟩

/-- Claim C3, counterexample: `update` also raises MissingParameter when the
responseCode is present but 0 (JS `!httpResponseCode` is true for 0), so
"raises if and only if the identifier or the responseCode is absent" fails at
identifier "u" (present, non-empty) and responseCode 0 (present). -/
theorem C3_zero_code_counterexample :
    (some 0 : Option Nat) ≠ none ∧ (some "u" : Option String) ≠ none ∧
    (¬ (some "u" : Option String) = some "") ∧
    updateCircuitBreaker closedStore (some "u") (some 0) "e1" 5000 =
      Except.error "Missing required parameter: httpResponseCode" := by
  decide

/-- Claim C3 (amended): check raises MissingParameter (surfaced as
route=error with a message naming the missing field) if and only if the
identifier is absent or empty, and update raises MissingParameter if and only
if the identifier is absent/empty or the responseCode is absent or zero
(JS falsiness).  In the source both validations precede every cache access,
so a MissingParameter rejection returns before any breaker state is read or
written; in this embedding that is visible as the call returning
`Except.error` before `cacheGet`/`cacheSet` occur. -/
theorem C3_missing_parameter_iff :
    (∀ store id p now,
      configCheckCircuitBreaker store id p now =
          Except.error "Missing required parameter: circuitBreakerId" ↔
        (id = none ∨ id = some "")) ∧
    (∀ store id code eid now,
      (updateCircuitBreaker store id code eid now =
          Except.error "Missing required parameter: circuitBreakerId" ∨
       updateCircuitBreaker store id code eid now =
          Except.error "Missing required parameter: httpResponseCode") ↔
        (id = none ∨ id = some "" ∨ code = none ∨ code = some 0)) := by
  constructor
  · intro store id p now
    cases id with
    | none => simp [configCheckCircuitBreaker]
    | some s =>
      by_cases hs : s = ""
      · simp [configCheckCircuitBreaker, hs]
      · cases hg : cacheGet store s with
        | none =>
          rcases dispatch_cases now (initialCircuitBreaker p) with ⟨cb1, hd, -⟩ | hd <;>
            simp [configCheckCircuitBreaker, hs, hg, hd]
        | some cb =>
          rcases dispatch_cases now cb with ⟨cb1, hd, -⟩ | hd <;>
            simp [configCheckCircuitBreaker, hs, hg, hd]
  · intro store id code eid now
    cases id with
    | none => simp [updateCircuitBreaker]
    | some s =>
      by_cases hs : s = ""
      · simp [updateCircuitBreaker, hs]
      · cases code with
        | none => simp [updateCircuitBreaker, hs]
        | some c =>
          by_cases hc : c = 0
          · simp [updateCircuitBreaker, hs, hc]
          · cases hg : cacheGet store s with
            | none => simp [updateCircuitBreaker, hs, hc, hg]
            | some cb =>
              rw [update_ok_spec store s cb c eid now hs hc hg]
              cases hb : (_isReturnCodeAnError cb c).1 <;> simp [hb, hs, hc]

/-- Claim C4: for every breaker in status halfopen, check routes next when
successCount is even and open when successCount is odd, except that whenever
`successCount >= halfOpenSuccesses` the breaker transitions to closed, the
errors list is cleared, and the route is next. -/
theorem C4_halfopen_routing (store : Store) (id : String) (cb : CircuitBreaker)
    (p : SuppliedParams) (now : Nat)
    (hid : ¬ id = "") (hget : cacheGet store id = some cb) (hst : cb.status = "halfopen") :
    ∃ r, configCheckCircuitBreaker store (some id) p now = Except.ok r ∧
      (cb.params.halfOpenSuccesses ≤ cb.successCount →
        r.value.status = "closed" ∧ r.value.errors = [] ∧ r.output = "next") ∧
      (cb.successCount < cb.params.halfOpenSuccesses →
        r.value.status = "halfopen" ∧ r.value.errors = cb.errors ∧
        (cb.successCount % 2 = 0 → r.output = "next") ∧
        (¬ cb.successCount % 2 = 0 → r.output = "open")) := by
  have hcfg : configCheckCircuitBreaker store (some id) p now =
      Except.ok { store := cacheSet store id (_handleHalfopenStatus cb),
                  value := _handleHalfopenStatus cb,
                  output := (_handleHalfopenStatus cb).output } := by
    simp [configCheckCircuitBreaker, hid, hget, dispatchStatus, hst]
  refine ⟨_, hcfg, ?_, ?_⟩
  · intro hle
    by_cases hpar : cb.successCount % 2 = 0 <;> simp [_handleHalfopenStatus, hpar, hle]
  · intro hlt
    have hn : ¬ cb.params.halfOpenSuccesses ≤ cb.successCount := by omega
    by_cases hpar : cb.successCount % 2 = 0 <;>
      simp [_handleHalfopenStatus, hpar, hn, hst]

/-- Witness for C4 at a halfopen breaker with successCount 2 and
halfOpenSuccesses 5. -/
theorem C4_halfopen_routing_witness :
    (¬ ("hb" : String) = "") ∧ cacheGet hoStore "hb" = some hoBreaker ∧
    hoBreaker.status = "halfopen" ∧
    (∃ r, configCheckCircuitBreaker hoStore (some "hb") {} 999 = Except.ok r ∧
      (hoBreaker.params.halfOpenSuccesses ≤ hoBreaker.successCount →
        r.value.status = "closed" ∧ r.value.errors = [] ∧ r.output = "next") ∧
      (hoBreaker.successCount < hoBreaker.params.halfOpenSuccesses →
        r.value.status = "halfopen" ∧ r.value.errors = hoBreaker.errors ∧
        (hoBreaker.successCount % 2 = 0 → r.output = "next") ∧
        (¬ hoBreaker.successCount % 2 = 0 → r.output = "open"))) :=
  ⟨by decide, by decide, by decide,
    C4_halfopen_routing hoStore "hb" hoBreaker {} 999 (by decide) (by decide) (by decide)⟩

/-- Claim C5, counterexample: the claim says a success-classified update
"increments successCount by one and changes nothing else", but on a cache
miss the classification also records its verdict in the classificationCache
(`errorCodeMap`): updating the fresh default breaker with success code 200
bumps successCount to 1 AND changes `errorCodeMap` from `[]` to
`[(200, false)]`. -/
theorem C5_cache_write_counterexample :
    closedDefaultBreaker.errorCodeMap = [] ∧
    (updateCircuitBreaker closedStore (some "u") (some 200) "e1" 5000).map
      (fun r => (r.value.successCount, r.value.errorCodeMap)) =
      Except.ok (1, [(200, false)]) := by
  decide

/-- Claim C5 (amended): for every existing breaker and every responseCode
classified as an error, update appends one event
`{timestamp: now, cause: "responseCode <code>"}` to errors and sets
status = open with openedAt = now if and only if status was halfopen or the
post-append errors.length reaches maxErrorCount, leaving successCount,
params, output and openedAt (in the non-opening case) unchanged; for every
responseCode classified as a success, update increments successCount by one
and changes nothing else; in both cases the route is next — EXCEPT that in
either case the classification may additionally record its result in the
classificationCache (`errorCodeMap`) when the code was not cached yet. -/
theorem C5_update_effects (store : Store) (id : String) (cb : CircuitBreaker) (code : Nat)
    (eid : String) (now : Nat)
    (hid : ¬ id = "") (hcode : ¬ code = 0) (hget : cacheGet store id = some cb) :
    ∃ r, updateCircuitBreaker store (some id) (some code) eid now = Except.ok r ∧
      r.output = "next" ∧
      r.value.params = cb.params ∧
      r.value.output = cb.output ∧
      r.value.errorCodeMap = (_isReturnCodeAnError cb code).2.errorCodeMap ∧
      ((_isReturnCodeAnError cb code).1 = true →
        r.value.errors = cb.errors ++ [{ error := eid, timestamp := now, cause := causeOf code }] ∧
        r.value.successCount = cb.successCount ∧
        ((cb.status = "halfopen" ∨ cb.params.maxErrorCount ≤ cb.errors.length + 1) →
          r.value.status = "open" ∧ r.value.openedTimestamp = some now) ∧
        (¬ (cb.status = "halfopen" ∨ cb.params.maxErrorCount ≤ cb.errors.length + 1) →
          r.value.status = cb.status ∧ r.value.openedTimestamp = cb.openedTimestamp)) ∧
      ((_isReturnCodeAnError cb code).1 = false →
        r.value.successCount = cb.successCount + 1 ∧
        r.value.errors = cb.errors ∧ r.value.status = cb.status ∧
        r.value.openedTimestamp = cb.openedTimestamp) := by
  obtain ⟨hs, ho, he, hc, hot, hp⟩ := isReturnCodeAnError_preserves cb code
  have hspec := update_ok_spec store id cb code eid now hid hcode hget
  cases hb : (_isReturnCodeAnError cb code).1 with
  | true =>
    rw [hb] at hspec
    simp only [if_true, hs, he, hp] at hspec
    by_cases hcond : cb.status = "halfopen" ∨ cb.params.maxErrorCount ≤ cb.errors.length + 1
    · rw [if_pos (by simpa [List.length_append] using hcond)] at hspec
      refine ⟨_, hspec, ?_⟩
      simp [hb, ho, hc, hot, hp, he, hcond]
    · rw [if_neg (by simpa [List.length_append] using hcond)] at hspec
      refine ⟨_, hspec, ?_⟩
      simp [hb, ho, hc, hot, hp, he, hs, hcond]
  | false =>
    rw [hb] at hspec
    simp only [Bool.false_eq_true, if_false] at hspec
    refine ⟨_, hspec, ?_⟩
    simp [hb, ho, hc, hot, hp, he, hs]

/-- Witness for C5: an error update (code 500) on the fresh default breaker. -/
theorem C5_update_effects_witness :
    (¬ ("u" : String) = "") ∧ (¬ (500 : Nat) = 0) ∧
    cacheGet closedStore "u" = some closedDefaultBreaker ∧
    (∃ r, updateCircuitBreaker closedStore (some "u") (some 500) "e1" 5000 = Except.ok r ∧
      r.output = "next" ∧
      r.value.params = closedDefaultBreaker.params ∧
      r.value.output = closedDefaultBreaker.output ∧
      r.value.errorCodeMap = (_isReturnCodeAnError closedDefaultBreaker 500).2.errorCodeMap ∧
      ((_isReturnCodeAnError closedDefaultBreaker 500).1 = true →
        r.value.errors = closedDefaultBreaker.errors ++
          [{ error := "e1", timestamp := 5000, cause := causeOf 500 }] ∧
        r.value.successCount = closedDefaultBreaker.successCount ∧
        ((closedDefaultBreaker.status = "halfopen" ∨
            closedDefaultBreaker.params.maxErrorCount ≤ closedDefaultBreaker.errors.length + 1) →
          r.value.status = "open" ∧ r.value.openedTimestamp = some 5000) ∧
        (¬ (closedDefaultBreaker.status = "halfopen" ∨
            closedDefaultBreaker.params.maxErrorCount ≤ closedDefaultBreaker.errors.length + 1) →
          r.value.status = closedDefaultBreaker.status ∧
          r.value.openedTimestamp = closedDefaultBreaker.openedTimestamp)) ∧
      ((_isReturnCodeAnError closedDefaultBreaker 500).1 = false →
        r.value.successCount = closedDefaultBreaker.successCount + 1 ∧
        r.value.errors = closedDefaultBreaker.errors ∧
        r.value.status = closedDefaultBreaker.status ∧
        r.value.openedTimestamp = closedDefaultBreaker.openedTimestamp)) :=
  ⟨by decide, by decide, by decide,
    C5_update_effects closedStore "u" closedDefaultBreaker 500 "e1" 5000
      (by decide) (by decide) (by decide)⟩

/-- Claim C6: for every spec string, the classifier's cache-miss parse
returns true iff some comma-separated token matches (the first-match loop is
equivalent to existence), a range token `[lo-hi]` (brackets optional) matches
exactly the codes with `lo ≤ code ≤ hi`, an integer token matches on numeric
equality — shown for the claim's anchor tokens at every code — and on a cache
miss `_isReturnCodeAnError` returns exactly this parse; in particular for the
spec "[300-500], 999", code 600 is not an error, 307 is, and 999 is. -/
theorem C6_classifier_semantics :
    (∀ s code, _isReturnCodeAnErrorMiss s code = true ↔
      ∃ f ∈ splitOnChar ',' s.toList, elementIsError code (trimChars f) = true) ∧
    (∀ cb code, cb.errorCodeMap.lookup code = none →
      (_isReturnCodeAnError cb code).1 = _isReturnCodeAnErrorMiss cb.params.returnCodes code) ∧
    (∀ code, elementIsError code ("[300-500]".toList) =
      (decide (300 ≤ code) && decide (code ≤ 500))) ∧
    (∀ code, elementIsError code ("300-500".toList) =
      (decide (300 ≤ code) && decide (code ≤ 500))) ∧
    (∀ code, elementIsError code ("999".toList) = (code == 999)) ∧
    _isReturnCodeAnErrorMiss "[300-500], 999" 600 = false ∧
    _isReturnCodeAnErrorMiss "[300-500], 999" 307 = true ∧
    _isReturnCodeAnErrorMiss "[300-500], 999" 999 = true := by
  refine ⟨?_, ?_, ?_, ?_, ?_, by decide, by decide, by decide⟩
  · intro s code
    exact scanFields_eq_true_iff code (splitOnChar ',' s.toList)
  · intro cb code h
    simp [_isReturnCodeAnError, h]
  · intro code; rfl
  · intro code; rfl
  · intro code; rfl

/-- Witness for C6: the fresh default breaker has no cached verdict for 307,
so classification equals the parse of its spec. -/
theorem C6_classifier_semantics_witness :
    closedDefaultBreaker.errorCodeMap.lookup 307 = none ∧
    (_isReturnCodeAnError closedDefaultBreaker 307).1 =
      _isReturnCodeAnErrorMiss closedDefaultBreaker.params.returnCodes 307 :=
  ⟨by decide, C6_classifier_semantics.2.1 closedDefaultBreaker 307 (by decide)⟩

/-- Claim C7: classification is idempotent per breaker and code: the first
call writes its result (matched or not) into the classificationCache before
returning, a call on a breaker whose cache holds a verdict returns that
verdict without touching the breaker (so the spec is not re-parsed), and any
second call returns the same boolean and the same breaker as the first. -/
theorem C7_classification_idempotent :
    (∀ cb code, (_isReturnCodeAnError cb code).2.errorCodeMap.lookup code =
      some (_isReturnCodeAnError cb code).1) ∧
    (∀ cb code v, cb.errorCodeMap.lookup code = some v →
      _isReturnCodeAnError cb code = (v, cb)) ∧
    (∀ cb code, _isReturnCodeAnError ((_isReturnCodeAnError cb code).2) code =
      ((_isReturnCodeAnError cb code).1, (_isReturnCodeAnError cb code).2)) := by
  have h1 : ∀ cb code, (_isReturnCodeAnError cb code).2.errorCodeMap.lookup code =
      some (_isReturnCodeAnError cb code).1 := by
    intro cb code
    unfold _isReturnCodeAnError
    cases h : cb.errorCodeMap.lookup code <;> simp [List.lookup, h]
  have h2 : ∀ cb code v, cb.errorCodeMap.lookup code = some v →
      _isReturnCodeAnError cb code = (v, cb) := by
    intro cb code v h
    simp [_isReturnCodeAnError, h]
  refine ⟨h1, h2, ?_⟩
  intro cb code
  exact h2 _ code _ (h1 cb code)

/-- Witness for C7: a breaker whose cache already holds 307 ↦ true returns
the cached verdict and is left unchanged. -/
theorem C7_classification_idempotent_witness :
    cachedBreaker.errorCodeMap.lookup 307 = some true ∧
    _isReturnCodeAnError cachedBreaker 307 = (true, cachedBreaker) :=
  ⟨by decide, C7_classification_idempotent.2.1 cachedBreaker 307 true (by decide)⟩

/-- Claim C8: a check call for an unseen identifier creates a breaker with
status closed, empty errors, successCount 0, and params equal to the supplied
params merged field-by-field over the defaults (maxErrorCount 10,
timeRange 300, halfOpenSuccesses 5, recoverPeriod 30, returnCodes
"[300-999]", maxResponseTime 100, communicationError true), stores it, and
routes next; and for an identifier with an existing breaker a later check
call with any (possibly different) params either returns with the stored
params unchanged, or rejects with the TypeError of the loggerless open-state
fallthrough (reachable only at halfOpenSuccesses = 0; no handler ever writes
params). -/
theorem C8_creation_defaults_immutable :
    (∀ store (id : String) p now, ¬ id = "" → cacheGet store id = none →
      ∃ r, configCheckCircuitBreaker store (some id) p now = Except.ok r ∧
        r.value.status = "closed" ∧ r.value.errors = [] ∧ r.value.successCount = 0 ∧
        r.value.params = _setDefaultParams p ∧ r.output = "next" ∧
        cacheGet r.store id = some r.value) ∧
    (∀ p, (_setDefaultParams p).maxErrorCount = p.maxErrorCount.getD 10 ∧
          (_setDefaultParams p).timeRange = p.timeRange.getD 300 ∧
          (_setDefaultParams p).halfOpenSuccesses = p.halfOpenSuccesses.getD 5 ∧
          (_setDefaultParams p).recoverPeriod = p.recoverPeriod.getD 30 ∧
          (_setDefaultParams p).returnCodes = p.returnCodes.getD "[300-999]" ∧
          (_setDefaultParams p).maxResponseTime = p.maxResponseTime.getD 100 ∧
          (_setDefaultParams p).communicationError = p.communicationError.getD true) ∧
    (∀ store (id : String) cb p now, ¬ id = "" → cacheGet store id = some cb →
      (∃ r, configCheckCircuitBreaker store (some id) p now = Except.ok r ∧
        r.value.params = cb.params ∧ cacheGet r.store id = some r.value) ∨
      configCheckCircuitBreaker store (some id) p now =
        Except.error "TypeError: Cannot read properties of undefined (reading debug)") := by
  refine ⟨?_, ?_, ?_⟩
  · intro store id p now hid hget
    have hcfg : configCheckCircuitBreaker store (some id) p now =
        Except.ok { store := cacheSet store id (_handleClosedStatus (initialCircuitBreaker p)),
                    value := _handleClosedStatus (initialCircuitBreaker p),
                    output := (_handleClosedStatus (initialCircuitBreaker p)).output } := by
      simp [configCheckCircuitBreaker, hid, hget, dispatchStatus, initialCircuitBreaker,
        _handleClosedStatus]
    refine ⟨_, hcfg, ?_⟩
    simp [initialCircuitBreaker, _handleClosedStatus, cacheGet_set_self]
  · intro p
    simp [_setDefaultParams]
  · intro store id cb p now hid hget
    rcases dispatch_cases now cb with ⟨cb1, hd, hp⟩ | hd
    · exact Or.inl ⟨{ store := cacheSet store id cb1, value := cb1, output := cb1.output },
        by simp [configCheckCircuitBreaker, hid, hget, hd], hp, cacheGet_set_self store id cb1⟩
    · exact Or.inr (by simp [configCheckCircuitBreaker, hid, hget, hd])

/-- Witness for C8: creation on the empty store, and params immutability of
the breaker stored under "u". -/
theorem C8_creation_defaults_immutable_witness :
    (¬ ("newb" : String) = "") ∧ cacheGet ([] : Store) "newb" = none ∧
    (∃ r, configCheckCircuitBreaker ([] : Store) (some "newb") {} 9 = Except.ok r ∧
      r.value.status = "closed" ∧ r.value.errors = [] ∧ r.value.successCount = 0 ∧
      r.value.params = _setDefaultParams {} ∧ r.output = "next" ∧
      cacheGet r.store "newb" = some r.value) ∧
    cacheGet closedStore "u" = some closedDefaultBreaker ∧
    ((∃ r, configCheckCircuitBreaker closedStore (some "u")
        { maxErrorCount := some 3 } 77 = Except.ok r ∧
      r.value.params = closedDefaultBreaker.params ∧ cacheGet r.store "u" = some r.value) ∨
     configCheckCircuitBreaker closedStore (some "u") { maxErrorCount := some 3 } 77 =
       Except.error "TypeError: Cannot read properties of undefined (reading debug)") :=
  ⟨by decide, by decide,
    C8_creation_defaults_immutable.1 ([] : Store) "newb" {} 9 (by decide) (by decide),
    by decide,
    C8_creation_defaults_immutable.2.2 closedStore "u" closedDefaultBreaker
      { maxErrorCount := some 3 } 77 (by decide) (by decide)⟩

/-- Claim C9, counterexample: an update call with a valid identifier and
responseCode but no existing breaker state is claimed to "fail silently as a
no-op, raising no error"; in the source `_isReturnCodeAnError(undefined,
500)` dereferences `undefined.errorCodeMap` and the call rejects with a
TypeError instead. -/
theorem C9_typeerror_counterexample :
    cacheGet ([] : Store) "u" = none ∧
    updateCircuitBreaker ([] : Store) (some "u") (some 500) "e1" 5000 =
      Except.error "TypeError: Cannot read properties of undefined (reading errorCodeMap)" := by
  decide

/-- Claim C9 (amended): an update call with a valid identifier and
responseCode for which no breaker state exists raises a runtime TypeError
(dereferencing the undefined breaker inside the classifier) and mutates no
state; it is not a silent no-op. -/
theorem C9_unknown_identifier_errors (store : Store) (id : String) (code : Nat)
    (eid : String) (now : Nat)
    (hid : ¬ id = "") (hcode : ¬ code = 0) (hget : cacheGet store id = none) :
    updateCircuitBreaker store (some id) (some code) eid now =
      Except.error "TypeError: Cannot read properties of undefined (reading errorCodeMap)" := by
  simp [updateCircuitBreaker, hid, hcode, hget]

/-- Witness for C9 at the empty store. -/
theorem C9_unknown_identifier_errors_witness :
    (¬ ("v" : String) = "") ∧ (¬ (404 : Nat) = 0) ∧ cacheGet ([] : Store) "v" = none ∧
    updateCircuitBreaker ([] : Store) (some "v") (some 404) "e9" 1234 =
      Except.error "TypeError: Cannot read properties of undefined (reading errorCodeMap)" :=
  ⟨by decide, by decide, by decide,
    C9_unknown_identifier_errors ([] : Store) "v" 404 "e9" 1234
      (by decide) (by decide) (by decide)⟩

/-- Claim C10: for every existing breaker and every update call that passes
validation, the only status transition update can perform is into "open":
the resulting status is either unchanged or "open", so open→halfopen,
open→closed and halfopen→closed are performed exclusively by check. -/
theorem C10_update_only_opens (store : Store) (id : String) (cb : CircuitBreaker)
    (code : Nat) (eid : String) (now : Nat)
    (hid : ¬ id = "") (hcode : ¬ code = 0) (hget : cacheGet store id = some cb) :
    ∃ r, updateCircuitBreaker store (some id) (some code) eid now = Except.ok r ∧
      (r.value.status = cb.status ∨ r.value.status = "open") ∧
      (¬ r.value.status = cb.status → r.value.status = "open") := by
  obtain ⟨hs, ho, he, hc, hot, hp⟩ := isReturnCodeAnError_preserves cb code
  have hspec := update_ok_spec store id cb code eid now hid hcode hget
  cases hb : (_isReturnCodeAnError cb code).1 with
  | true =>
    rw [hb] at hspec
    simp only [if_true] at hspec
    by_cases hcond : (_isReturnCodeAnError cb code).2.status = "halfopen" ∨
        (_isReturnCodeAnError cb code).2.params.maxErrorCount ≤
          ((_isReturnCodeAnError cb code).2.errors ++
            [({ error := eid, timestamp := now, cause := causeOf code } : ErrorEvent)]).length
    · rw [if_pos (by simpa using hcond)] at hspec
      exact ⟨_, hspec, by simp, by simp⟩
    · rw [if_neg (by simpa using hcond)] at hspec
      exact ⟨_, hspec, by simp [hs], by simp [hs]⟩
  | false =>
    rw [hb] at hspec
    simp only [Bool.false_eq_true, if_false] at hspec
    exact ⟨_, hspec, by simp [hs], by simp [hs]⟩

/-- Witness for C10: a success update on the default breaker leaves the
status unchanged. -/
theorem C10_update_only_opens_witness :
    (¬ ("u" : String) = "") ∧ (¬ (200 : Nat) = 0) ∧
    cacheGet closedStore "u" = some closedDefaultBreaker ∧
    (∃ r, updateCircuitBreaker closedStore (some "u") (some 200) "e1" 5000 = Except.ok r ∧
      (r.value.status = closedDefaultBreaker.status ∨ r.value.status = "open") ∧
      (¬ r.value.status = closedDefaultBreaker.status → r.value.status = "open")) :=
  ⟨by decide, by decide, by decide,
    C10_update_only_opens closedStore "u" closedDefaultBreaker 200 "e1" 5000
      (by decide) (by decide) (by decide)⟩
